import Mathlib

/-!
Verification of the LiveBatteryDB telemetry engine against its specification.

The Python sources (`sems_client.py`, `energy_common.py`, `simple_dashboard.py`)
are shallowly embedded below.  Python floats are modelled as `Rat` (the claims
under scrutiny are sign-convention and formula-structure facts, exact in either
semantics); Python `None`-able values as `Option`; raised exceptions as
`Except Unit`; dict truthiness (`if d:`) by an `Option` that is `none` for an
absent or empty dict; string truthiness explicitly (the empty string is falsy).
-/

deriving instance DecidableEq for Except

namespace SemsClient

/-- Python truthiness of an optional string (`None` and `""` are falsy). -/
def strTruthy : Option String → Bool
  | some s => s ≠ ""
  | none => false

/-- Python truthiness of an optional float (`None` and `0.0` are falsy). -/
def numTruthy : Option Rat → Bool
  | some x => x ≠ 0
  | none => false

/-- `o.getD 0`, the value a Python `dict.get(key, 0)` feeds to `float(...)`. -/
def getD0 (o : Option Rat) : Rat := o.getD 0

/-- The leading run of characters matched by `re.match(r"([\d.]+)", s)`:
digits and dots, anchored at the start of the string. -/
def numPrefix (cs : List Char) : List Char :=
  cs.takeWhile (fun c => c.isDigit || c = '.')

/-- Value of a string of decimal digits. -/
def digitsVal (cs : List Char) : Nat :=
  cs.foldl (fun n c => 10 * n + (c.toNat - 48)) 0

/-- Python `float(s)` for a non-empty string `s` made of digits and at most
one dot: `"123"`, `"123."`, `".5"` parse; `"."` and `"1.2.3"` raise
(`none` here models the `ValueError`). -/
def pyFloat? (cs : List Char) : Option Rat :=
  if cs.count '.' = 0 then
    some (digitsVal cs)
  else if cs.count '.' = 1 then
    let i := cs.takeWhile (· ≠ '.')
    let f := (cs.dropWhile (· ≠ '.')).tail
    if i.isEmpty && f.isEmpty then none
    else some ((digitsVal i : Rat) + (digitsVal f : Rat) / (10 : Rat) ^ f.length)
  else none

/-- `_parse_power` from `sems_client.py` (lines 378-384), including the raised
`ValueError` when the regex matches a prefix that is not a valid float literal
(e.g. `"1.2.3"`): `.error ()` models the exception propagating out.
`none` input models an absent key, for which the caller supplies the default
string `"0"`. -/
def parse_power (val : Option String) : Except Unit Rat :=
  match val with
  | none => .ok 0
  | some s =>
    if s = "" then .ok 0
    else
      let p := numPrefix s.toList
      if p.isEmpty then .ok 0
      else
        match pyFloat? p with
        | some v => .ok v
        | none => .error ()

/-- The `kpi` section of the monitor-detail payload (absent keys default 0). -/
structure Kpi where
  pac : Rat
  power : Rat
  total_power : Rat
deriving DecidableEq, Repr

/-- The `soc` section (`soc_data.get("power", 0)`), present and non-empty. -/
structure SocData where
  power : Int
deriving DecidableEq, Repr

/-- The structured (`Shape A`) `homeKit` section of the payload. -/
structure HomeKit where
  pCharge : Option Rat
  pDisCharge : Option Rat
  pGrid : Option Rat
  pGridExport : Option Rat
  pLoad : Option Rat
deriving DecidableEq, Repr

/-- The flow-string (`Shape B`) `powerflow` section of the payload.  The
status flags default to 0 when absent (`powerflow.get("betteryStatus", 0)`). -/
structure Powerflow where
  pv : Option String
  bettery : Option String
  betteryStatus : Int
  grid : Option String
  gridStatus : Int
  load : Option String
  soc : Option Int
deriving DecidableEq, Repr

/-- The `data` section of a monitor-detail response.  `homeKit` / `powerflow` /
`socData` are `none` when the dict is absent or empty (Python falsy). -/
structure PlantData where
  kpi : Kpi
  socData : Option SocData
  homeKit : Option HomeKit
  powerflow : Option Powerflow
deriving DecidableEq, Repr

/-- The subset of `InverterData` fields the normalizer writes. -/
structure InverterData where
  pv_power : Rat
  battery_soc : Int
  battery_power : Rat
  grid_power : Rat
  load_power : Rat
  today_pv_energy : Rat
  total_pv_energy : Rat
  error_message : Option String
deriving DecidableEq, Repr

/-- A fresh `InverterData(timestamp=...)`: every numeric field zero. -/
def emptyInv : InverterData :=
  { pv_power := 0, battery_soc := 0, battery_power := 0, grid_power := 0,
    load_power := 0, today_pv_energy := 0, total_pv_energy := 0,
    error_message := none }

/-- The normalization section of `SEMSClient.fetch_data` (lines 329-419):
kpi pv power, the `soc` section, the Shape-A `homeKit` block, and the Shape-B
`powerflow` fallback block (guarded by `if powerflow and not home_kit`).
`.error ()` models an exception (e.g. a `ValueError` from `_parse_power`)
escaping to the enclosing `except` clause. -/
def normalizeSnapshot (p : PlantData) : Except Unit InverterData :=
  let d0 : InverterData :=
    { emptyInv with
      pv_power := p.kpi.pac * 1000,
      battery_soc := match p.socData with | some sd => sd.power | none => 0,
      today_pv_energy := p.kpi.power,
      total_pv_energy := p.kpi.total_power }
  let d1 : InverterData :=
    match p.homeKit with
    | none => d0
    | some hk =>
      let battery := getD0 hk.pCharge * 1000
      let battery := if numTruthy hk.pDisCharge then -(getD0 hk.pDisCharge) * 1000 else battery
      let grid := getD0 hk.pGrid * 1000
      let grid := if numTruthy hk.pGridExport then -(getD0 hk.pGridExport) * 1000 else grid
      { d0 with battery_power := battery, grid_power := grid,
                load_power := getD0 hk.pLoad * 1000 }
  match p.powerflow, p.homeKit with
  | some pf, none =>
    match parse_power pf.pv, parse_power pf.bettery,
          parse_power pf.grid, parse_power pf.load with
    | .ok pv_val, .ok batt_val, .ok grid_val, .ok load_val =>
      let d2 := if pv_val > 0 then { d1 with pv_power := pv_val } else d1
      let d3 :=
        if pf.betteryStatus = -1 then { d2 with battery_power := -batt_val }
        else if pf.betteryStatus = 1 then { d2 with battery_power := batt_val }
        else d2
      let d4 :=
        if pf.gridStatus = -1 then { d3 with grid_power := -grid_val }
        else if pf.gridStatus = 1 then { d3 with grid_power := grid_val }
        else d3
      let d5 := if load_val > 0 then { d4 with load_power := load_val } else d4
      let d6 := match pf.soc with | some s => { d5 with battery_soc := s } | none => d5
      .ok d6
    | _, _, _, _ => .error ()
  | _, _ => .ok d1

/-- The `data` section of a login response, when it is a dict.
`agreementKey` records whether the substring `"agreement"` occurs among the
dict's keys (`"agreement" in str(result.keys()).lower()`). -/
structure LoginData where
  uid : Option String
  timestamp : Option String
  token : Option String
  agreementKey : Bool
deriving DecidableEq, Repr

/-- The `data.get("data", {})` field: either not a dict, or a dict. -/
inductive DataField where
  | notDict
  | dict (d : LoginData)
deriving DecidableEq, Repr

/-- A parsed login response body (`json.loads` succeeded). -/
structure LoginResponse where
  code : Option Int
  hasError : Option Bool
  msg : Option String
  dataField : DataField
  api : Option String
deriving DecidableEq, Repr

/-- The AuthSession state owned by `SEMSClient`: session `token`, `uid`,
serialized `_auth_token` blob, and the (possibly regional) `api_url`. -/
structure ClientState where
  token : Option String
  uid : Option String
  authToken : Option String
  apiUrl : String
deriving DecidableEq, Repr

def SEMS_API_BASE : String := "https://www.semsportal.com/api/"

/-- `SEMSClient.__init__`: token, uid and auth token absent, default URL. -/
def initState : ClientState :=
  { token := none, uid := none, authToken := none, apiUrl := SEMS_API_BASE }

/-- `json.dumps(auth_data)` for the auth dict built at login (line 162-170). -/
def mkAuthBlob (uid timestamp token : String) : String :=
  "\x7b\"uid\": \"" ++ uid ++ "\", \"timestamp\": \"" ++ timestamp ++
    "\", \"token\": \"" ++ token ++
    "\", \"client\": \"ios\", \"version\": \"v2.0.4\", \"language\": \"en\"\x7d"

/-- `SEMSClient.login` (lines 114-195).  The input is the parsed response
body, or `.error ()` for any exception raised before the body is inspected
(connection error, `json.loads` failure).  Returns the `(success, message)`
pair together with the client state after the call. -/
def login (st : ClientState) (input : Except Unit LoginResponse) :
    Bool × String × ClientState :=
  match input with
  | .error _ => (false, "Error", st)
  | .ok r =>
    let msg := r.msg.getD ""
    if r.hasError = some true || (r.code ≠ none && r.code ≠ some 0) then
      (false, "Login failed: " ++ (if msg = "" then "Unknown error" else msg), st)
    else
      match r.dataField with
      | .notDict => (false, "Unexpected response format", st)
      | .dict result =>
        let st := if strTruthy r.api then { st with apiUrl := r.api.getD "" } else st
        let uid := result.uid.getD ""
        let timestamp := result.timestamp.getD ""
        let token := result.token.getD ""
        let st := { st with authToken := some (mkAuthBlob uid timestamp token),
                            uid := some uid, token := some token }
        let st := if token = "" && uid ≠ "" then { st with token := some uid } else st
        if uid ≠ "" then (true, "Login successful", st)
        else if result.agreementKey then
          (false, "Please log in to semsportal.com or the SEMS app first and accept any terms/agreements, then try again.", st)
        else (false, "Login response missing uid", st)

/-- Python truthiness of `self.uid` (`None` and `""` are falsy). -/
def uidTruthy (st : ClientState) : Bool := strTruthy st.uid

/-- Observable network-level actions of one `fetch_data` cycle. -/
inductive Ev where
  | login
  | request
deriving DecidableEq, Repr

/-- The monitor-detail request's outcome as seen by `fetch_data`:
empty body, non-dict body, upstream `hasError` flag with its message,
or a parsed `data` payload. -/
inductive ReqResp where
  | emptyBody
  | nonDict
  | hasErr (msg : String)
  | payload (p : PlantData)
deriving DecidableEq, Repr

/-- The request/normalization part of `fetch_data` (lines 301-432), after
station-id and login guards: issues the request and reconciles the payload. -/
def runReq (st : ClientState) (evs : List Ev) (req : ReqResp) :
    InverterData × List Ev × ClientState :=
  let evs := evs ++ [Ev.request]
  match req with
  | .emptyBody =>
      ({ emptyInv with error_message := some "Empty response from API" }, evs, st)
  | .nonDict =>
      ({ emptyInv with error_message := some "Invalid response format" }, evs, st)
  | .hasErr m => ({ emptyInv with error_message := some m }, evs, st)
  | .payload p =>
    match normalizeSnapshot p with
    | .ok d => (d, evs, st)
    | .error _ =>
        ({ emptyInv with error_message := some "exception" }, evs, st)

/-- `SEMSClient.fetch_data` (lines 267-432): station-id guard, login when no
uid is held, then one request.  `loginInput` is consulted only if a login is
attempted; the returned event list records the logins and requests issued. -/
def fetch_data (st : ClientState) (stationId : String)
    (loginInput : Except Unit LoginResponse) (req : ReqResp) :
    InverterData × List Ev × ClientState :=
  if stationId = "" then
    let m := "Station ID is required. Please set SEMS_STATION_ID in config.py"
    ({ emptyInv with error_message := some m }, [], st)
  else if uidTruthy st then runReq st [] req
  else
    match login st loginInput with
    | (true, _, st') => runReq st' [Ev.login] req
    | (false, msg, st') =>
        ({ emptyInv with error_message := some msg }, [Ev.login], st')

end SemsClient

namespace ChartModel

/-!
Model of the `process_chart_data` pipeline shared verbatim between
`energy_common.py` (lines 96-148) and `simple_dashboard.py` (lines 89-162);
the two copies are identical line for line except for the branch taken when
no metric series is non-empty.  Timestamps are modelled as seconds (`Int`,
the value `pd.to_datetime` sorts and differences), powers as `Rat` watts.
-/

/-- The dict returned by `fetch_chart_data`: an optional error flag and the
five per-metric series of `(timestamp, value)` pairs; an absent key and an
empty list behave identically (`key in chart_json and chart_json[key]`). -/
structure ChartJson where
  error : Option String
  pv_power : List (Int × Rat)
  battery_power : List (Int × Rat)
  meter_power : List (Int × Rat)
  load_power : List (Int × Rat)
  soc : List (Int × Rat)
deriving DecidableEq, Repr

/-- Python truthiness of `chart_json.get("error")`. -/
def hasErrFlag (c : ChartJson) : Bool :=
  match c.error with
  | some s => s ≠ ""
  | none => false

/-- Insert a timestamp into a sorted, duplicate-free axis (the effect of
`pd.concat(axis=1).sort_index()` on the union of the series indexes). -/
def insertTs (t : Int) : List Int → List Int
  | [] => [t]
  | h :: tl =>
    if t < h then t :: h :: tl
    else if t = h then h :: tl
    else h :: insertTs t tl

/-- The five series in the order the source iterates over them. -/
def seriesList (c : ChartJson) : List (List (Int × Rat)) :=
  [c.pv_power, c.battery_power, c.meter_power, c.load_power, c.soc]

/-- The unified sorted, de-duplicated time axis of the merged frame. -/
def axisOf (c : ChartJson) : List Int :=
  (((seriesList c).map (fun s => s.map Prod.fst)).flatten).foldl
    (fun ax t => insertTs t ax) []

/-- Value of a metric at a timestamp after reindexing onto the unified axis
with `fillna(0)`: the series value when present, else 0. -/
def valAt (s : List (Int × Rat)) (t : Int) : Rat :=
  ((s.find? (fun p => p.1 = t)).map Prod.snd).getD 0

/-- `USAGE_TARIFF = 26.18` c/kWh (cost to buy from grid). -/
def USAGE_TARIFF : Rat := 2618 / 100

/-- `FEEDIN_TARIFF = 5.0` c/kWh (credit for selling to grid). -/
def FEEDIN_TARIFF : Rat := 5

/-- One row of the processed DataFrame, with every derived column. -/
structure Row where
  ts : Int
  pv_power : Rat
  battery_power : Rat
  meter_power : Rat
  load_power : Rat
  soc : Rat
  dt_hours : Rat
  pv_energy_kwh : Rat
  load_energy_kwh : Rat
  battery_discharge_kwh : Rat
  battery_charge_kwh : Rat
  grid_import_kwh : Rat
  grid_export_kwh : Rat
  solar_to_load_kwh : Rat
  solar_benefit : Rat
  battery_discharge_benefit : Rat
  battery_charge_cost : Rat
  battery_net_benefit : Rat
  export_income : Rat
  grid_cost : Rat
deriving DecidableEq, Repr

/-- The processed DataFrame: which raw metric columns exist (that determines
the `_kw` companions the guarded loop adds), and the rows. -/
structure Frame where
  hasPv : Bool
  hasBattery : Bool
  hasMeter : Bool
  hasLoad : Bool
  hasSoc : Bool
  rows : List Row
deriving DecidableEq, Repr

/-- `pd.DataFrame()`: no columns, no rows. -/
def emptyFrame : Frame :=
  { hasPv := false, hasBattery := false, hasMeter := false, hasLoad := false,
    hasSoc := false, rows := [] }

/-- `dt_hours` of a row: the gap to the previous timestamp in hours
(`diff().dt.total_seconds() / 3600`), with the leading `NaN` of `diff()`
replaced by `5.0/60.0` (`fillna(5.0/60.0)`). -/
def dtOf (prev : Option Int) (t : Int) : Rat :=
  match prev with
  | none => 5 / 60
  | some p => ((t - p : Int) : Rat) / 3600

/-- One row of the merged frame at timestamp `t`, transcribing the column
formulas of `energy_common.py` lines 124-146 (= `simple_dashboard.py` lines
120-160): left-rectangle energies, clipped battery/grid splits, per-interval
min for solar self-consumption, and the tariff-scaled financial columns.
`clip(lower=0)` is `max · 0`. -/
def mkRow (c : ChartJson) (prev : Option Int) (t : Int) : Row :=
  let pv := valAt c.pv_power t
  let batt := valAt c.battery_power t
  let meter := valAt c.meter_power t
  let load := valAt c.load_power t
  let soc := valAt c.soc t
  let dt := dtOf prev t
  let pv_energy := pv / 1000 * dt
  let load_energy := load / 1000 * dt
  let batt_discharge := max batt 0 / 1000 * dt
  let batt_charge := max (-batt) 0 / 1000 * dt
  let g_import := max (-meter) 0 / 1000 * dt
  let g_export := max meter 0 / 1000 * dt
  let solar_to_load := min pv_energy load_energy
  let batt_discharge_benefit := batt_discharge * USAGE_TARIFF / 100
  let batt_charge_cost := batt_charge * FEEDIN_TARIFF / 100
  { ts := t, pv_power := pv, battery_power := batt, meter_power := meter,
    load_power := load, soc := soc, dt_hours := dt,
    pv_energy_kwh := pv_energy, load_energy_kwh := load_energy,
    battery_discharge_kwh := batt_discharge, battery_charge_kwh := batt_charge,
    grid_import_kwh := g_import, grid_export_kwh := g_export,
    solar_to_load_kwh := solar_to_load,
    solar_benefit := solar_to_load * USAGE_TARIFF / 100,
    battery_discharge_benefit := batt_discharge_benefit,
    battery_charge_cost := batt_charge_cost,
    battery_net_benefit := batt_discharge_benefit - batt_charge_cost,
    export_income := g_export * FEEDIN_TARIFF / 100,
    grid_cost := g_import * USAGE_TARIFF / 100 }

/-- Build all rows over the axis, threading the previous timestamp. -/
def mkRows (c : ChartJson) : Option Int → List Int → List Row
  | _, [] => []
  | prev, t :: ts => mkRow c prev t :: mkRows c (some t) ts

/-- The merged frame over the non-degenerate path (at least one series
non-empty, all four power columns present so no `KeyError` is raised). -/
def mkFrame (c : ChartJson) : Frame :=
  { hasPv := !c.pv_power.isEmpty, hasBattery := !c.battery_power.isEmpty,
    hasMeter := !c.meter_power.isEmpty, hasLoad := !c.load_power.isEmpty,
    hasSoc := !c.soc.isEmpty, rows := mkRows c none (axisOf c) }

/-- True when some metric series is non-empty (`data_frames` non-empty). -/
def someSeries (c : ChartJson) : Bool :=
  !c.pv_power.isEmpty || !c.battery_power.isEmpty || !c.meter_power.isEmpty ||
    !c.load_power.isEmpty || !c.soc.isEmpty

/-- True when every column the energy lines index is present; otherwise the
source raises a `KeyError` at one of lines 128-137. -/
def powerColsPresent (c : ChartJson) : Bool :=
  !c.pv_power.isEmpty && !c.battery_power.isEmpty && !c.meter_power.isEmpty &&
    !c.load_power.isEmpty

end ChartModel

namespace EnergyCommon

open ChartModel

/-- `process_chart_data` from `energy_common.py` (lines 96-148).  The input
`none` models a falsy `chart_json`; `.ok none` models returning `None`;
`.error ()` models an uncaught `KeyError` (a needed column is absent). -/
def process_chart_data (c : Option ChartJson) : Except Unit (Option Frame) :=
  match c with
  | none => .ok none
  | some c =>
    if hasErrFlag c then .ok none
    else if !someSeries c then .ok none
    else if powerColsPresent c then .ok (some (mkFrame c))
    else .error ()

end EnergyCommon

namespace SimpleDashboard

open ChartModel

/-- `process_chart_data` from `simple_dashboard.py` (lines 89-162): identical
to the `energy_common.py` copy except that when no series is non-empty it
returns `pd.DataFrame()` (an empty frame) instead of `None`. -/
def process_chart_data (c : Option ChartJson) : Except Unit (Option Frame) :=
  match c with
  | none => .ok none
  | some c =>
    if hasErrFlag c then .ok none
    else if !someSeries c then .ok (some emptyFrame)
    else if powerColsPresent c then .ok (some (mkFrame c))
    else .error ()

end SimpleDashboard

/-! Concrete inputs used to instantiate and refute the claims. -/

namespace ChartModel

/-- A two-sample chart payload: every metric sampled at `t0` and `t1`, the
battery series constantly `bv`, the meter series constantly `mv`, all other
metrics 0. -/
def twoSample (t0 t1 : Int) (bv mv : Rat) : ChartJson :=
  { error := none,
    pv_power := [(t0, 0), (t1, 0)],
    battery_power := [(t0, bv), (t1, bv)],
    meter_power := [(t0, mv), (t1, mv)],
    load_power := [(t0, 0), (t1, 0)],
    soc := [(t0, 0), (t1, 0)] }

/-- A chart payload carrying an upstream error flag and no series. -/
def errChart : ChartJson :=
  { error := some "Unknown error", pv_power := [], battery_power := [],
    meter_power := [], load_power := [], soc := [] }

/-- A non-error chart payload whose series are all empty. -/
def allEmptyChart : ChartJson :=
  { error := none, pv_power := [], battery_power := [], meter_power := [],
    load_power := [], soc := [] }

end ChartModel

namespace SemsClient

/-- A powerflow section supplying only a state-of-charge. -/
def pfOnlySoc : Powerflow :=
  { pv := none, bettery := none, betteryStatus := 0, grid := none,
    gridStatus := 0, load := none, soc := some 80 }

/-- A non-empty homeKit section (Shape A present). -/
def hkLoadOnly : HomeKit :=
  { pCharge := none, pDisCharge := none, pGrid := none, pGridExport := none,
    pLoad := some 1 }

/-- A payload where the soc section, Shape A and Shape B are all present and
both shapes carry a state-of-charge. -/
def pBothSoc : PlantData :=
  { kpi := { pac := 0, power := 0, total_power := 0 },
    socData := some { power := 50 },
    homeKit := some hkLoadOnly,
    powerflow := some pfOnlySoc }

/-- A powerflow section whose battery magnitude string has a leading
digits-and-dots prefix that is not a valid float literal. -/
def pfBadBattery : Powerflow :=
  { pv := none, bettery := some "1.2.3(W)", betteryStatus := 1, grid := none,
    gridStatus := 0, load := none, soc := none }

/-- A Shape-B-only payload whose only malformed field is the battery
magnitude string. -/
def pBadBattery : PlantData :=
  { kpi := { pac := 0, power := 0, total_power := 0 },
    socData := none, homeKit := none, powerflow := some pfBadBattery }

/-- A fully-populated homeKit section. -/
def hkFull : HomeKit :=
  { pCharge := some 3, pDisCharge := none, pGrid := none,
    pGridExport := some 4, pLoad := some 5 }

/-- A payload carrying both Shape A and Shape B sections. -/
def pBothShapes : PlantData :=
  { kpi := { pac := 2, power := 0, total_power := 0 },
    socData := none, homeKit := some hkFull, powerflow := some pfOnlySoc }

/-- A payload with the soc section and Shape B present but Shape A absent. -/
def pSocNoHomeKit : PlantData :=
  { kpi := { pac := 0, power := 0, total_power := 0 },
    socData := some { power := 50 }, homeKit := none,
    powerflow := some pfOnlySoc }

/-- A Shape-B-only payload with a well-formed discharging battery string. -/
def pShapeB500 : PlantData :=
  { kpi := { pac := 0, power := 0, total_power := 0 },
    socData := none, homeKit := none,
    powerflow := some { pv := none, bettery := some "500(W)",
                        betteryStatus := -1, grid := none, gridStatus := 1,
                        load := none, soc := none } }

/-- A client state holding a session (uid present), as after a successful
login. -/
def stAuthed : ClientState :=
  { token := some "tok", uid := some "user-1", authToken := some "blob",
    apiUrl := SEMS_API_BASE }

/-- A login response with no error flag, code 0 absent, whose data dict has
no uid but mentions agreements (the consent-required failure). -/
def consentResp : LoginResponse :=
  { code := none, hasError := none, msg := none,
    dataField := .dict { uid := none, timestamp := none, token := none,
                         agreementKey := true },
    api := none }

/-- A login response rejected by the server (error flag set). -/
def rejectResp : LoginResponse :=
  { code := some 100, hasError := some true, msg := some "bad credentials",
    dataField := .notDict, api := none }

/-- A login response whose data field is not a dict (protocol mismatch). -/
def notDictResp : LoginResponse :=
  { code := none, hasError := none, msg := none, dataField := .notDict,
    api := none }

end SemsClient

/-! ## Theorems -/

namespace SemsClientC4
open SemsClient

/-- **C4, counterexample.**  A login response with no error flag and a dict
data field that lacks a uid but mentions agreements (consent-required) fails,
yet the client state after the call differs from the state before: the
serialized auth-token blob has been written. -/
theorem C4_counterexample :
    (login initState (.ok consentResp)).1 = false
    ∧ (login initState (.ok consentResp)).2.2 ≠ initState
    ∧ (login initState (.ok consentResp)).2.2.authToken ≠ initState.authToken := by
  refine ⟨rfl, by decide, by decide⟩

/-- **C4, amended.**  Server-rejected (error flag or nonzero code),
protocol-mismatch (non-dict data field) and exception failures of `login`
leave the whole AuthSession state exactly as before the call; but a response
that passes those checks and carries no uid (consent-required or missing-uid)
overwrites the auth-token blob, uid and token with values built from the
incomplete response before the failure is returned. -/
theorem C4_login_failure_state :
    (∀ st : ClientState, (login st (.error ())).2.2 = st
        ∧ (login st (.error ())).1 = false)
    ∧ (∀ (st : ClientState) (r : LoginResponse), r.hasError = some true →
        (login st (.ok r)).2.2 = st ∧ (login st (.ok r)).1 = false)
    ∧ (∀ (st : ClientState) (r : LoginResponse),
        r.code ≠ none → r.code ≠ some 0 →
        (login st (.ok r)).2.2 = st ∧ (login st (.ok r)).1 = false)
    ∧ (∀ (st : ClientState) (r : LoginResponse), r.dataField = .notDict →
        (login st (.ok r)).2.2 = st ∧ (login st (.ok r)).1 = false)
    ∧ (∀ (st : ClientState) (r : LoginResponse) (d : LoginData),
        r.dataField = .dict d → r.hasError ≠ some true →
        (r.code = none ∨ r.code = some 0) → d.uid.getD "" = "" →
        (login st (.ok r)).1 = false
        ∧ (login st (.ok r)).2.2.authToken
            = some (mkAuthBlob "" (d.timestamp.getD "") (d.token.getD ""))
        ∧ (login st (.ok r)).2.2.uid = some ""
        ∧ (login st (.ok r)).2.2.token = some (d.token.getD "")) := by
  refine ⟨fun st => ⟨rfl, rfl⟩, ?_, ?_, ?_, ?_⟩
  · intro st r h
    simp [login, h]
  · intro st r h1 h2
    simp [login, h1, h2]
  · intro st r h
    simp only [login, h]
    split
    · exact ⟨rfl, rfl⟩
    · exact ⟨rfl, rfl⟩
  · intro st r d hdf hne hcode huid
    simp only [login, hdf]
    rw [if_neg (by rcases hcode with hc | hc <;> simp [hne, hc])]
    simp [huid]
    split_ifs <;> simp

/-- **C4, witness.**  The exception, rejected, protocol-mismatch and
missing-uid paths each at a concrete state and response. -/
theorem C4_login_failure_state_witness :
    ((login stAuthed (.error ())).2.2 = stAuthed
      ∧ (login stAuthed (.error ())).1 = false)
    ∧ ((login stAuthed (.ok rejectResp)).2.2 = stAuthed
      ∧ (login stAuthed (.ok rejectResp)).1 = false)
    ∧ ((login stAuthed (.ok notDictResp)).2.2 = stAuthed
      ∧ (login stAuthed (.ok notDictResp)).1 = false)
    ∧ ((login initState (.ok consentResp)).1 = false
      ∧ (login initState (.ok consentResp)).2.2.authToken
          = some (mkAuthBlob "" "" "")
      ∧ (login initState (.ok consentResp)).2.2.uid = some ""
      ∧ (login initState (.ok consentResp)).2.2.token = some "") :=
  ⟨C4_login_failure_state.1 stAuthed,
    C4_login_failure_state.2.1 stAuthed rejectResp rfl,
    C4_login_failure_state.2.2.2.1 stAuthed notDictResp rfl,
    C4_login_failure_state.2.2.2.2 initState consentResp
      { uid := none, timestamp := none, token := none, agreementKey := true }
      rfl (by decide) (.inl rfl) rfl⟩

end SemsClientC4

namespace SemsClientC5
open SemsClient

/-- **C5, counterexample.**  The magnitude string `"1.2.3(W)"` has a leading
digits-and-dots prefix that is not a valid float literal, so `_parse_power`
raises instead of normalizing to 0.0, and the whole snapshot fetch returns an
error solely because of that one malformed field. -/
theorem C5_counterexample :
    parse_power (some "1.2.3(W)") = .error ()
    ∧ normalizeSnapshot pBadBattery = .error ()
    ∧ (fetch_data stAuthed "station-2" (.error ())
        (.payload pBadBattery)).1.error_message = some "exception" := by
  refine ⟨by decide, by decide, by decide⟩

/-- **C5, amended.**  A magnitude string with no leading digit-or-dot
characters normalizes to 0.0 rather than raising; but a magnitude string
whose leading digit/dot prefix is not a valid float literal (such as
`"1.2.3(W)"`) raises, aborting the record. -/
theorem C5_parse_power_soft_failure :
    (∀ s : String, numPrefix s.toList = [] → parse_power (some s) = .ok 0)
    ∧ parse_power (some "1.2.3(W)") = .error () := by
  constructor
  · intro s h
    simp only [String.toList] at h
    by_cases hs : s = ""
    · simp [parse_power, hs]
    · simp [parse_power, hs, h]
  · decide

/-- **C5, witness.** -/
theorem C5_parse_power_soft_failure_witness :
    parse_power (some "N/A") = .ok 0 :=
  C5_parse_power_soft_failure.1 "N/A" (by decide)

end SemsClientC5

namespace SemsClientEval
open SemsClient

/-- Evaluation of the normalizer when Shape A (`homeKit`) is present: the
powerflow block is skipped and every output field is a function of the kpi,
soc and homeKit sections alone. -/
theorem shapeA_eval (p : PlantData) (hk : HomeKit) (h : p.homeKit = some hk) :
    normalizeSnapshot p = .ok
      { pv_power := p.kpi.pac * 1000,
        battery_soc := (match p.socData with | some sd => sd.power | none => 0),
        battery_power := (if numTruthy hk.pDisCharge then
            -(getD0 hk.pDisCharge) * 1000 else getD0 hk.pCharge * 1000),
        grid_power := (if numTruthy hk.pGridExport then
            -(getD0 hk.pGridExport) * 1000 else getD0 hk.pGrid * 1000),
        load_power := getD0 hk.pLoad * 1000,
        today_pv_energy := p.kpi.power,
        total_pv_energy := p.kpi.total_power,
        error_message := none } := by
  cases hpw : p.powerflow <;> simp only [normalizeSnapshot, h, hpw] <;> rfl

set_option maxHeartbeats 1000000 in
/-- Evaluation of the normalizer when Shape A is absent and Shape B is
present with all four magnitude strings parsing. -/
theorem shapeB_eval (p : PlantData) (pf : Powerflow)
    (pv_val batt_val grid_val load_val : Rat)
    (h1 : p.homeKit = none) (h2 : p.powerflow = some pf)
    (hpv : parse_power pf.pv = .ok pv_val)
    (hbt : parse_power pf.bettery = .ok batt_val)
    (hgr : parse_power pf.grid = .ok grid_val)
    (hld : parse_power pf.load = .ok load_val) :
    normalizeSnapshot p = .ok
      { pv_power := if pv_val > 0 then pv_val else p.kpi.pac * 1000,
        battery_soc := (match pf.soc with
          | some s => s
          | none => match p.socData with | some sd => sd.power | none => 0),
        battery_power := (if pf.betteryStatus = -1 then -batt_val
          else if pf.betteryStatus = 1 then batt_val else 0),
        grid_power := (if pf.gridStatus = -1 then -grid_val
          else if pf.gridStatus = 1 then grid_val else 0),
        load_power := if load_val > 0 then load_val else 0,
        today_pv_energy := p.kpi.power,
        total_pv_energy := p.kpi.total_power,
        error_message := none } := by
  simp only [normalizeSnapshot, h1, h2, hpv, hbt, hgr, hld]
  cases hsoc : pf.soc <;> simp only [hsoc] <;> split_ifs <;> rfl

/-- When neither shape is present only the kpi and soc sections matter. -/
theorem noShape_eval (p : PlantData) (h1 : p.homeKit = none)
    (h2 : p.powerflow = none) :
    normalizeSnapshot p = .ok
      { pv_power := p.kpi.pac * 1000,
        battery_soc := (match p.socData with | some sd => sd.power | none => 0),
        battery_power := 0, grid_power := 0, load_power := 0,
        today_pv_energy := p.kpi.power,
        total_pv_energy := p.kpi.total_power,
        error_message := none } := by
  simp only [normalizeSnapshot, h1, h2]
  rfl

end SemsClientEval

namespace SemsClientC6
open SemsClient SemsClientEval

/-- **C6.**  When the Shape A (`homeKit`) section is present and non-empty,
the normalized record is determined by Shape A (and the kpi/soc sections)
alone — the stated record never mentions `powerflow` — and normalization
succeeds; when Shape A is absent and Shape B parses, the canonical battery
and grid powers are the Shape-B values.  The two shapes are never merged. -/
theorem C6_shapeA_precedence :
    (∀ (p : PlantData) (hk : HomeKit), p.homeKit = some hk →
      normalizeSnapshot p = .ok
        { pv_power := p.kpi.pac * 1000,
          battery_soc := (match p.socData with | some sd => sd.power | none => 0),
          battery_power := (if numTruthy hk.pDisCharge then
              -(getD0 hk.pDisCharge) * 1000 else getD0 hk.pCharge * 1000),
          grid_power := (if numTruthy hk.pGridExport then
              -(getD0 hk.pGridExport) * 1000 else getD0 hk.pGrid * 1000),
          load_power := getD0 hk.pLoad * 1000,
          today_pv_energy := p.kpi.power,
          total_pv_energy := p.kpi.total_power,
          error_message := none })
    ∧ (∀ (p : PlantData) (pf : Powerflow) (bv gv : Rat) (d : InverterData),
        p.homeKit = none → p.powerflow = some pf →
        parse_power pf.bettery = .ok bv → parse_power pf.grid = .ok gv →
        normalizeSnapshot p = .ok d →
        d.battery_power = (if pf.betteryStatus = -1 then -bv
          else if pf.betteryStatus = 1 then bv else 0)
        ∧ d.grid_power = (if pf.gridStatus = -1 then -gv
          else if pf.gridStatus = 1 then gv else 0)) := by
  constructor
  · exact shapeA_eval
  · intro p pf bv gv d h1 h2 hbt hgr h5
    cases hpv : parse_power pf.pv with
    | error e => (simp only [normalizeSnapshot, h1, h2, hpv] at h5; cases h5)
    | ok pv_val =>
      cases hld : parse_power pf.load with
      | error e => (simp only [normalizeSnapshot, h1, h2, hpv, hbt, hgr, hld] at h5; cases h5)
      | ok load_val =>
        rw [shapeB_eval p pf pv_val bv gv load_val h1 h2 hpv hbt hgr hld] at h5
        injection h5 with h5
        subst h5
        exact ⟨rfl, rfl⟩

/-- **C6, witness.**  A payload carrying both shapes: the Shape-A values are
used untouched by the Shape-B strings. -/
theorem C6_shapeA_precedence_witness :
    normalizeSnapshot pBothShapes
      = .ok { pv_power := 2000, battery_soc := 0,
              battery_power := 3000, grid_power := -4000, load_power := 5000,
              today_pv_energy := 0, total_pv_energy := 0,
              error_message := none }
    ∧ (normalizeSnapshot pShapeB500).map InverterData.battery_power
        = .ok (-500)
    ∧ (normalizeSnapshot pShapeB500).map InverterData.grid_power = .ok 0 := by
  refine ⟨?_, ?_⟩
  · rw [C6_shapeA_precedence.1 pBothShapes hkFull rfl]
    norm_num [numTruthy, getD0, hkFull, pBothShapes]
  · cases hn : normalizeSnapshot pShapeB500 with
    | error e => cases e; exact absurd hn (by decide)
    | ok d =>
      have hd := C6_shapeA_precedence.2 pShapeB500 _ 500 0 d rfl rfl
        (by decide) (by decide) hn
      refine ⟨?_, ?_⟩ <;> simp [Except.map, hd.1, hd.2]

end SemsClientC6

namespace SemsClientC7
open SemsClient SemsClientEval

/-- **C7, counterexample.**  A payload in which the soc section (Shape A)
says 50 and the powerflow section (Shape B) says 80, with a non-empty
`homeKit`: the canonical state-of-charge is the Shape A value 50, not the Shape B value 80 —
Shape B does not win whenever both shapes supply a value. -/
theorem C7_counterexample :
    (normalizeSnapshot pBothSoc).map InverterData.battery_soc = .ok 50
    ∧ (normalizeSnapshot pBothSoc).map InverterData.battery_soc ≠ .ok 80 := by
  refine ⟨rfl, by decide⟩

/-- **C7, amended.**  The Shape B state-of-charge wins only when the powerflow
block runs, i.e. when Shape A (`homeKit`) is absent; when Shape A power data
is present, or when the powerflow section supplies no soc, the soc-section
value is used. -/
theorem C7_soc_precedence :
    (∀ (p : PlantData) (pf : Powerflow) (s : Int) (d : InverterData),
        p.homeKit = none → p.powerflow = some pf → pf.soc = some s →
        normalizeSnapshot p = .ok d → d.battery_soc = s)
    ∧ (∀ (p : PlantData) (hk : HomeKit) (sd : SocData) (d : InverterData),
        p.homeKit = some hk → p.socData = some sd →
        normalizeSnapshot p = .ok d → d.battery_soc = sd.power)
    ∧ (∀ (p : PlantData) (sd : SocData) (d : InverterData),
        p.powerflow = none → p.socData = some sd →
        normalizeSnapshot p = .ok d → d.battery_soc = sd.power)
    ∧ (∀ (p : PlantData) (pf : Powerflow) (sd : SocData) (d : InverterData),
        p.homeKit = none → p.powerflow = some pf → pf.soc = none →
        p.socData = some sd →
        normalizeSnapshot p = .ok d → d.battery_soc = sd.power) := by
  refine ⟨?_, ?_, ?_, ?_⟩
  · intro p pf s d h1 h2 h3 h4
    cases hpv : parse_power pf.pv with
    | error e => (simp only [normalizeSnapshot, h1, h2, hpv] at h4; cases h4)
    | ok pv_val =>
      cases hbt : parse_power pf.bettery with
      | error e => (simp only [normalizeSnapshot, h1, h2, hpv, hbt] at h4; cases h4)
      | ok batt_val =>
        cases hgr : parse_power pf.grid with
        | error e => (simp only [normalizeSnapshot, h1, h2, hpv, hbt, hgr] at h4; cases h4)
        | ok grid_val =>
          cases hld : parse_power pf.load with
          | error e => (simp only [normalizeSnapshot, h1, h2, hpv, hbt, hgr, hld] at h4; cases h4)
          | ok load_val =>
            rw [shapeB_eval p pf pv_val batt_val grid_val load_val
              h1 h2 hpv hbt hgr hld] at h4
            injection h4 with h4
            subst h4
            simp only [h3]
  · intro p hk sd d h1 h2 h4
    rw [shapeA_eval p hk h1] at h4
    injection h4 with h4
    subst h4
    simp only [h2]
  · intro p sd d h1 h2 h4
    cases hhk : p.homeKit with
    | none =>
      rw [noShape_eval p hhk h1] at h4
      injection h4 with h4
      subst h4
      simp only [h2]
    | some hk =>
      rw [shapeA_eval p hk hhk] at h4
      injection h4 with h4
      subst h4
      simp only [h2]
  · intro p pf sd d h1 h2 h3 hsd h4
    cases hpv : parse_power pf.pv with
    | error e => (simp only [normalizeSnapshot, h1, h2, hpv] at h4; cases h4)
    | ok pv_val =>
      cases hbt : parse_power pf.bettery with
      | error e => (simp only [normalizeSnapshot, h1, h2, hpv, hbt] at h4; cases h4)
      | ok batt_val =>
        cases hgr : parse_power pf.grid with
        | error e => (simp only [normalizeSnapshot, h1, h2, hpv, hbt, hgr] at h4; cases h4)
        | ok grid_val =>
          cases hld : parse_power pf.load with
          | error e => (simp only [normalizeSnapshot, h1, h2, hpv, hbt, hgr, hld] at h4; cases h4)
          | ok load_val =>
            rw [shapeB_eval p pf pv_val batt_val grid_val load_val
              h1 h2 hpv hbt hgr hld] at h4
            injection h4 with h4
            subst h4
            simp only [h3, hsd]

/-- **C7, witness.**  The Shape B soc wins when `homeKit` is absent; the soc
section wins when `homeKit` is present. -/
theorem C7_soc_precedence_witness :
    (normalizeSnapshot pSocNoHomeKit).map InverterData.battery_soc = .ok 80
    ∧ (normalizeSnapshot pBothSoc).map InverterData.battery_soc = .ok 50 := by
  refine ⟨?_, ?_⟩
  · cases hn : normalizeSnapshot pSocNoHomeKit with
    | error e =>
      cases e
      exact absurd hn (by decide)
    | ok d =>
      have hd := C7_soc_precedence.1 pSocNoHomeKit pfOnlySoc 80 d rfl rfl rfl hn
      simp [Except.map, hd]
  · cases hn : normalizeSnapshot pBothSoc with
    | error e =>
      cases e
      exact absurd hn (by decide)
    | ok d =>
      have hd := C7_soc_precedence.2.1 pBothSoc hkLoadOnly { power := 50 } d
        rfl rfl hn
      simp [Except.map, hd]

end SemsClientC7

namespace SemsClient

/-- **C3, counterexample.**  With a session already held (uid present), a
monitor-detail request that fails with an authentication error is surfaced
immediately: the cycle's event trace is just the request, containing zero
re-login attempts — not the exactly-one re-login the claim requires. -/
theorem C3_counterexample :
    (fetch_data stAuthed "station-1" (.error ())
        (.hasErr "Authentication failed")).1.error_message
      = some "Authentication failed"
    ∧ (fetch_data stAuthed "station-1" (.error ())
        (.hasErr "Authentication failed")).2.1 = [Ev.request]
    ∧ ¬ ([Ev.request].count Ev.login = 1) := by
  refine ⟨rfl, rfl, by decide⟩

/-- **C3, amended.**  A telemetry request that fails with an authentication
error is surfaced unmodified with zero re-login attempts in the same cycle;
the only login a cycle performs is the pre-request one made when no uid is
held, and when that login fails its message is surfaced without the request
being issued. -/
theorem C3_no_relogin_on_auth_failure :
    (∀ (st : ClientState) (sid : String) (li : Except Unit LoginResponse)
        (m : String), sid ≠ "" → uidTruthy st = true →
      fetch_data st sid li (.hasErr m)
        = ({ emptyInv with error_message := some m }, [Ev.request], st))
    ∧ (∀ (st : ClientState) (sid : String) (li : Except Unit LoginResponse)
        (req : ReqResp) (msg : String) (st' : ClientState),
        sid ≠ "" → uidTruthy st = false → login st li = (false, msg, st') →
      fetch_data st sid li req
        = ({ emptyInv with error_message := some msg }, [Ev.login], st')) := by
  constructor
  · intro st sid li m hsid huid
    simp [fetch_data, hsid, huid, runReq]
  · intro st sid li req msg st' hsid huid hlogin
    simp [fetch_data, hsid, huid, hlogin]

/-- **C3, witness.** -/
theorem C3_no_relogin_on_auth_failure_witness :
    fetch_data stAuthed "station-1" (.error ()) (.hasErr "auth expired")
      = ({ emptyInv with error_message := some "auth expired" },
          [Ev.request], stAuthed)
    ∧ fetch_data initState "station-1" (.error ()) (.hasErr "auth expired")
      = ({ emptyInv with error_message := some "Error" },
          [Ev.login], initState) :=
  ⟨C3_no_relogin_on_auth_failure.1 stAuthed "station-1" (.error ())
      "auth expired" (by decide) (by decide),
    C3_no_relogin_on_auth_failure.2 initState "station-1" (.error ())
      (.hasErr "auth expired") "Error" initState (by decide) (by decide) rfl⟩

end SemsClient

namespace ChartLemmas
open ChartModel

/-- Every row of a built row list is `mkRow` at some previous-timestamp and
timestamp. -/
theorem mem_mkRows {c : ChartJson} {r : Row} :
    ∀ {prev : Option Int} {ts : List Int}, r ∈ mkRows c prev ts →
      ∃ (pv : Option Int) (t : Int), r = mkRow c pv t := by
  intro prev ts
  induction ts generalizing prev with
  | nil => intro h; simp [mkRows] at h
  | cons t ts ih =>
    intro h
    rw [mkRows] at h
    rcases List.mem_cons.mp h with h | h
    · exact ⟨prev, t, h⟩
    · exact ih h

/-- A frame produced by either implementation on the non-degenerate path is
`mkFrame`. -/
theorem process_eq_mkFrame {c : ChartJson} {f : Frame}
    (h : EnergyCommon.process_chart_data (some c) = .ok (some f)) :
    f = mkFrame c := by
  simp only [EnergyCommon.process_chart_data] at h
  split_ifs at h <;> simp_all

/-- The first row of a built row list has the fallback `dt`. -/
theorem mkRows_head_dt {c : ChartJson} {ts : List Int} {r : Row}
    (h : (mkRows c none ts).head? = some r) : r.dt_hours = 5 / 60 := by
  cases ts with
  | nil => simp [mkRows] at h
  | cons t ts =>
    rw [mkRows] at h
    simp only [List.head?_cons, Option.some.injEq] at h
    subst h
    rfl

/-- Two consecutive rows of a built row list differ in `dt` by the timestamp
gap in hours. -/
theorem mkRows_consecutive_dt {c : ChartJson} :
    ∀ {prev : Option Int} {ts : List Int} {i : Nat} {r r' : Row},
      (mkRows c prev ts).get? i = some r →
      (mkRows c prev ts).get? (i + 1) = some r' →
      r'.dt_hours = ((r'.ts - r.ts : Int) : Rat) / 3600 := by
  intro prev ts
  induction ts generalizing prev with
  | nil => intro i r r' h _; simp [mkRows] at h
  | cons t ts ih =>
    intro i r r' h h'
    cases i with
    | zero =>
      rw [mkRows] at h h'
      simp only [List.get?_cons_zero, Option.some.injEq] at h
      simp only [List.get?_cons_succ] at h'
      subst h
      cases ts with
      | nil => simp [mkRows] at h'
      | cons t2 ts2 =>
        rw [mkRows] at h'
        simp only [List.get?_cons_zero, Option.some.injEq] at h'
        subst h'
        rfl
    | succ n =>
      rw [mkRows] at h h'
      simp only [List.get?_cons_succ] at h h'
      exact ih h h'

end ChartLemmas

namespace ChartC2
open ChartModel ChartLemmas

/-- **C2, counterexample.**  A two-sample series with constant meter power
+1000 W: the computation books it all as grid *export* energy (1/12 kWh per
row) and zero import, while the claim — positive grid power means importing
and feeds the import column — predicts import 1/12 kWh and export 0. -/
theorem C2_counterexample :
    ((EnergyCommon.process_chart_data (some (twoSample 0 300 0 1000))).map
      (Option.map (fun f => f.rows.map
        (fun r => (r.grid_import_kwh, r.grid_export_kwh)))))
      = .ok (some [(0, 1/12), (0, 1/12)])
    ∧ ¬ (((EnergyCommon.process_chart_data (some (twoSample 0 300 0 1000))).map
      (Option.map (fun f => f.rows.map
        (fun r => (r.grid_import_kwh, r.grid_export_kwh)))))
      = .ok (some [(1/12, 0), (1/12, 0)])) := by
  have h : ((EnergyCommon.process_chart_data (some (twoSample 0 300 0 1000))).map
      (Option.map (fun f => f.rows.map
        (fun r => (r.grid_import_kwh, r.grid_export_kwh)))))
      = .ok (some [(0, 1/12), (0, 1/12)]) := by
    norm_num [EnergyCommon.process_chart_data, twoSample, hasErrFlag,
      someSeries, powerColsPresent, mkFrame, axisOf, seriesList, insertTs,
      mkRows, mkRow, valAt, dtOf, List.find?, Except.map]
  refine ⟨h, fun hc => ?_⟩
  rw [h] at hc
  simp only [Except.ok.injEq, Option.some.injEq, List.cons.injEq,
    Prod.mk.injEq] at hc
  norm_num at hc

/-- **C2, amended.**  For every row of the merged interval series, grid
*import* energy = (negative meter power clipped at zero, sign-flipped)/1000 ×
dt and grid *export* energy = (positive meter power clipped at zero)/1000 ×
dt: the chart meter series convention is negative = import, positive =
export, the opposite of the canonical snapshot convention. -/
theorem C2_grid_energy_split :
    ∀ (c : ChartJson) (f : Frame) (r : Row),
      EnergyCommon.process_chart_data (some c) = .ok (some f) → r ∈ f.rows →
      r.grid_import_kwh = max (-r.meter_power) 0 / 1000 * r.dt_hours
      ∧ r.grid_export_kwh = max r.meter_power 0 / 1000 * r.dt_hours := by
  intro c f r hp hm
  rw [process_eq_mkFrame hp] at hm
  obtain ⟨pv, t, rfl⟩ := mem_mkRows hm
  exact ⟨rfl, rfl⟩

/-- **C2, witness.** -/
theorem C2_grid_energy_split_witness :
    (mkRow (twoSample 0 300 0 1000) none 0).grid_import_kwh
      = max (-(mkRow (twoSample 0 300 0 1000) none 0).meter_power) 0 / 1000
          * (mkRow (twoSample 0 300 0 1000) none 0).dt_hours
    ∧ (mkRow (twoSample 0 300 0 1000) none 0).grid_export_kwh
      = max (mkRow (twoSample 0 300 0 1000) none 0).meter_power 0 / 1000
          * (mkRow (twoSample 0 300 0 1000) none 0).dt_hours :=
  C2_grid_energy_split (twoSample 0 300 0 1000)
    (mkFrame (twoSample 0 300 0 1000)) (mkRow (twoSample 0 300 0 1000) none 0)
    rfl (by rw [mkFrame]; exact List.mem_cons_self _ _)

end ChartC2

namespace ChartC1
open ChartModel ChartLemmas

/-- The merged axis of a two-sample chart with increasing timestamps. -/
theorem axisOf_twoSample (t0 t1 : Int) (bv mv : Rat) (h : t0 < t1) :
    axisOf (twoSample t0 t1 bv mv) = [t0, t1] := by
  have h1 : ¬ t1 < t0 := by omega
  have h2 : t1 ≠ t0 := by omega
  simp [axisOf, seriesList, twoSample, insertTs, h1, h2]

/-- **C1, counterexample.**  A two-sample series 5 minutes apart whose
battery series value is constantly +600: the computation books battery
*discharge* energy 0.05 kWh and *charge* energy 0 for both rows — the
opposite split of the claim, which takes +600 as canonical (charging) and
predicts discharge 0 and charge 0.05 kWh. -/
theorem C1_counterexample :
    ((EnergyCommon.process_chart_data (some (twoSample 0 300 600 0))).map
      (Option.map (fun f => f.rows.map
        (fun r => (r.battery_discharge_kwh, r.battery_charge_kwh)))))
      = .ok (some [(1/20, 0), (1/20, 0)])
    ∧ ¬ (((EnergyCommon.process_chart_data (some (twoSample 0 300 600 0))).map
      (Option.map (fun f => f.rows.map
        (fun r => (r.battery_discharge_kwh, r.battery_charge_kwh)))))
      = .ok (some [(0, 1/20), (0, 1/20)])) := by
  have h : ((EnergyCommon.process_chart_data (some (twoSample 0 300 600 0))).map
      (Option.map (fun f => f.rows.map
        (fun r => (r.battery_discharge_kwh, r.battery_charge_kwh)))))
      = .ok (some [(1/20, 0), (1/20, 0)]) := by
    norm_num [EnergyCommon.process_chart_data, twoSample, hasErrFlag,
      someSeries, powerColsPresent, mkFrame, axisOf, seriesList, insertTs,
      mkRows, mkRow, valAt, dtOf, List.find?, Except.map]
  refine ⟨h, fun hc => ?_⟩
  rw [h] at hc
  simp only [Except.ok.injEq, Option.some.injEq, List.cons.injEq,
    Prod.mk.injEq] at hc
  norm_num at hc

/-- **C1, amended.**  The chart battery series is in the chart convention
(positive = discharging), the opposite of the canonical snapshot convention:
for a two-sample series 5 minutes apart with constant battery value −600
(battery charging at 600 W), both rows get discharge energy 0 and charge
energy 0.05 kWh; a constant value +600 would instead be discharge.
Discharge energy derives from the positive part and charge energy from the
negative part of the chart battery power. -/
theorem C1_battery_energy_chart_convention (t0 t1 : Int) (h : t1 = t0 + 300) :
    ((EnergyCommon.process_chart_data (some (twoSample t0 t1 (-600) 0))).map
      (Option.map (fun f => f.rows.map
        (fun r => (r.battery_discharge_kwh, r.battery_charge_kwh)))))
      = .ok (some [(0, 1/20), (0, 1/20)])
    ∧ (∀ (c : ChartJson) (f : Frame) (r : Row),
        EnergyCommon.process_chart_data (some c) = .ok (some f) →
        r ∈ f.rows →
        r.battery_discharge_kwh = max r.battery_power 0 / 1000 * r.dt_hours
        ∧ r.battery_charge_kwh = max (-r.battery_power) 0 / 1000 * r.dt_hours) := by
  constructor
  · subst h
    have hax : axisOf (twoSample t0 (t0 + 300) (-600) 0) = [t0, t0 + 300] :=
      axisOf_twoSample _ _ _ _ (by omega)
    have hne : (t0 : Int) ≠ t0 + 300 := by omega
    have hne' : (t0 + 300 : Int) ≠ t0 := by omega
    rw [show EnergyCommon.process_chart_data
          (some (twoSample t0 (t0 + 300) (-600) 0))
        = .ok (some (mkFrame (twoSample t0 (t0 + 300) (-600) 0))) from rfl]
    simp only [Except.map, Option.map, mkFrame, hax, mkRows, mkRow, dtOf]
    norm_num [twoSample, valAt, List.find?, hne, hne']
  · intro c f r hp hm
    rw [process_eq_mkFrame hp] at hm
    obtain ⟨pv, t, rfl⟩ := mem_mkRows hm
    exact ⟨rfl, rfl⟩

/-- **C1, witness.** -/
theorem C1_battery_energy_chart_convention_witness :
    ((EnergyCommon.process_chart_data (some (twoSample 60 360 (-600) 0))).map
      (Option.map (fun f => f.rows.map
        (fun r => (r.battery_discharge_kwh, r.battery_charge_kwh)))))
      = .ok (some [(0, 1/20), (0, 1/20)])
    ∧ ((mkRow (twoSample 60 360 (-600) 0) none 60).battery_discharge_kwh
        = max (mkRow (twoSample 60 360 (-600) 0) none 60).battery_power 0
            / 1000 * (mkRow (twoSample 60 360 (-600) 0) none 60).dt_hours
      ∧ (mkRow (twoSample 60 360 (-600) 0) none 60).battery_charge_kwh
        = max (-(mkRow (twoSample 60 360 (-600) 0) none 60).battery_power) 0
            / 1000 * (mkRow (twoSample 60 360 (-600) 0) none 60).dt_hours) :=
  ⟨(C1_battery_energy_chart_convention 60 360 (by omega)).1,
    (C1_battery_energy_chart_convention 60 360 (by omega)).2
      (twoSample 60 360 (-600) 0) (mkFrame (twoSample 60 360 (-600) 0))
      (mkRow (twoSample 60 360 (-600) 0) none 60) rfl
      (by rw [mkFrame]; exact List.mem_cons_self _ _)⟩

end ChartC1

namespace ChartC8
open ChartModel ChartLemmas

/-- **C8.**  For every row of the processed series, solar self-consumption
energy equals the per-interval minimum of generation and load energy, hence
is at most each of them. -/
theorem C8_solar_self_consumption :
    ∀ (c : ChartJson) (f : Frame) (r : Row),
      EnergyCommon.process_chart_data (some c) = .ok (some f) → r ∈ f.rows →
      r.solar_to_load_kwh = min r.pv_energy_kwh r.load_energy_kwh
      ∧ r.solar_to_load_kwh ≤ r.pv_energy_kwh
      ∧ r.solar_to_load_kwh ≤ r.load_energy_kwh := by
  intro c f r hp hm
  rw [process_eq_mkFrame hp] at hm
  obtain ⟨pv, t, rfl⟩ := mem_mkRows hm
  exact ⟨rfl, min_le_left _ _, min_le_right _ _⟩

/-- **C8, witness.** -/
theorem C8_solar_self_consumption_witness :
    (mkRow (twoSample 0 300 7 9) none 0).solar_to_load_kwh
      = min (mkRow (twoSample 0 300 7 9) none 0).pv_energy_kwh
          (mkRow (twoSample 0 300 7 9) none 0).load_energy_kwh
    ∧ (mkRow (twoSample 0 300 7 9) none 0).solar_to_load_kwh
      ≤ (mkRow (twoSample 0 300 7 9) none 0).pv_energy_kwh
    ∧ (mkRow (twoSample 0 300 7 9) none 0).solar_to_load_kwh
      ≤ (mkRow (twoSample 0 300 7 9) none 0).load_energy_kwh :=
  C8_solar_self_consumption (twoSample 0 300 7 9)
    (mkFrame (twoSample 0 300 7 9)) (mkRow (twoSample 0 300 7 9) none 0)
    rfl (by rw [mkFrame]; exact List.mem_cons_self _ _)

end ChartC8

namespace ChartC9
open ChartModel ChartLemmas

/-- **C9.**  In the processed series the first row has the fixed fallback
`dt` of 5/60 hours and every later row has `dt` equal to the gap in hours to
the previous row. -/
theorem C9_dt_gaps :
    ∀ (c : ChartJson) (f : Frame),
      EnergyCommon.process_chart_data (some c) = .ok (some f) →
      (∀ r : Row, f.rows.head? = some r → r.dt_hours = 5 / 60)
      ∧ (∀ (i : Nat) (r r' : Row),
          f.rows.get? i = some r → f.rows.get? (i + 1) = some r' →
          r'.dt_hours = ((r'.ts - r.ts : Int) : Rat) / 3600) := by
  intro c f hp
  rw [process_eq_mkFrame hp]
  exact ⟨fun r h => mkRows_head_dt h,
    fun i r r' h h' => mkRows_consecutive_dt h h'⟩

/-- **C9, witness.** -/
theorem C9_dt_gaps_witness :
    (mkRow (twoSample 0 600 2 2) none 0).dt_hours = 5 / 60
    ∧ (mkRow (twoSample 0 600 2 2) (some 0) 600).dt_hours
        = (((mkRow (twoSample 0 600 2 2) (some 0) 600).ts
            - (mkRow (twoSample 0 600 2 2) none 0).ts : Int) : Rat) / 3600 :=
  ⟨(C9_dt_gaps (twoSample 0 600 2 2) (mkFrame (twoSample 0 600 2 2)) rfl).1
      (mkRow (twoSample 0 600 2 2) none 0) rfl,
    (C9_dt_gaps (twoSample 0 600 2 2) (mkFrame (twoSample 0 600 2 2)) rfl).2
      0 (mkRow (twoSample 0 600 2 2) none 0)
      (mkRow (twoSample 0 600 2 2) (some 0) 600) rfl rfl⟩

end ChartC9

namespace ChartC10
open ChartModel

/-- **C10, counterexample.**  On an error-flagged payload the two
implementations do not differ: both return `None`; the `None` versus
empty-DataFrame divergence does not occur there. -/
theorem C10_counterexample :
    EnergyCommon.process_chart_data (some errChart) = .ok none
    ∧ SimpleDashboard.process_chart_data (some errChart) = .ok none
    ∧ SimpleDashboard.process_chart_data (some errChart)
        ≠ .ok (some emptyFrame) := by
  refine ⟨rfl, rfl, by decide⟩

/-- **C10, amended.**  The two implementations of `process_chart_data`
agree on every non-error payload with at least one non-empty series, on
every error-flagged payload (both `None`), and on a falsy payload; they
differ exactly on non-error payloads whose series are all empty, where the
shared implementation returns `None` and the dashboard copy an empty
DataFrame. -/
theorem C10_equivalence :
    (∀ c : ChartJson, someSeries c = true →
      EnergyCommon.process_chart_data (some c)
        = SimpleDashboard.process_chart_data (some c))
    ∧ (∀ c : ChartJson, hasErrFlag c = true →
        EnergyCommon.process_chart_data (some c) = .ok none
        ∧ SimpleDashboard.process_chart_data (some c) = .ok none)
    ∧ EnergyCommon.process_chart_data none
        = SimpleDashboard.process_chart_data none
    ∧ (∀ c : ChartJson, hasErrFlag c = false → someSeries c = false →
        EnergyCommon.process_chart_data (some c) = .ok none
        ∧ SimpleDashboard.process_chart_data (some c)
            = .ok (some emptyFrame)) := by
  refine ⟨?_, ?_, rfl, ?_⟩
  · intro c hs
    by_cases he : hasErrFlag c <;>
      simp [EnergyCommon.process_chart_data, SimpleDashboard.process_chart_data,
        hs, he]
  · intro c he
    exact ⟨by simp [EnergyCommon.process_chart_data, he],
      by simp [SimpleDashboard.process_chart_data, he]⟩
  · intro c he hs
    exact ⟨by simp [EnergyCommon.process_chart_data, he, hs],
      by simp [SimpleDashboard.process_chart_data, he, hs]⟩

/-- **C10, witness.** -/
theorem C10_equivalence_witness :
    EnergyCommon.process_chart_data (some (twoSample 0 300 8 8))
      = SimpleDashboard.process_chart_data (some (twoSample 0 300 8 8))
    ∧ (EnergyCommon.process_chart_data (some allEmptyChart) = .ok none
      ∧ SimpleDashboard.process_chart_data (some allEmptyChart)
          = .ok (some emptyFrame)) :=
  ⟨C10_equivalence.1 (twoSample 0 300 8 8) rfl,
    C10_equivalence.2.2.2 allEmptyChart rfl rfl⟩

end ChartC10
